import Mathlib

/-!
Verification of the Nutrimama decision core (app/core/state.py, memory.py,
safety.py, reasoning.py) against its natural-language specification.

Modelling conventions:
* Python floats are modelled as rationals (ℚ).
* `datetime` values are modelled as rational hours since an arbitrary epoch;
  `timedelta(hours=h)` is the rational `h` and `timedelta(days=d)` is `24*d`.
* Python `dict`s (which preserve insertion order) are association lists; a
  lookup returns the first binding.  Python `set`s are duplicate-free lists in
  insertion order; the decision code only uses membership and iteration.
* Python's `sorted` is a stable sort; it is modelled by a stable insertion
  sort (`sortAsc` / `sortDesc`), which computes the same list.
* `datetime.utcnow()` inside a method is modelled by an explicit `now`
  parameter; `isoformat`/`fromisoformat` round-tripping is the identity on
  the rational time-stamps.
-/

namespace Nutrimama

/-- Clamp a rational to the unit interval, `max(0.0, min(1.0, x))`. -/
def clamp01 (x : ℚ) : ℚ := max 0 (min 1 x)

/-- First binding of `k` in an insertion-ordered dict of rationals. -/
def lookupQ (l : List (String × ℚ)) (k : String) : Option ℚ :=
  (l.find? (fun p => p.1 == k)).map Prod.snd

/-- Python dict assignment `d[k] = v` for a key that is (possibly) present:
replaces the value at every binding of `k`, keeping insertion order. -/
def updateAssoc (l : List (String × ℚ)) (k : String) (v : ℚ) :
    List (String × ℚ) :=
  l.map (fun p => if p.1 == k then (p.1, v) else p)

/-- Python `set.add`: append the element if it is not already present. -/
def addSet (s : List String) (x : String) : List String :=
  if x ∈ s then s else s ++ [x]

/-- Python `d[k] = d.get(k, 0) + 1` on an insertion-ordered counter dict. -/
def incrCount : List (String × Nat) → String → List (String × Nat)
  | [], k => [(k, 1)]
  | (k', v) :: rest, k =>
      if k' == k then (k', v + 1) :: rest else (k', v) :: incrCount rest k

/-- `d.get(k, 0)` on a counter dict. -/
def getCount (l : List (String × Nat)) (k : String) : Nat :=
  ((l.find? (fun p => p.1 == k)).map Prod.snd).getD 0

/-- app/core/state.py `MaternalBrainState`: the per-user belief state. -/
structure MaternalBrainState where
  nutrition : List (String × ℚ)
  energy_level : ℚ
  hydration_level : ℚ
  sleep_quality : ℚ
  stress_level : ℚ
  pregnancy_stage : Option String
  breastfeeding : Bool
  age : Option Int
  symptoms : List String
  confidence_in_state : List (String × ℚ)
  last_action : Option String
  last_action_date : Option ℚ
  created_at : ℚ
  last_updated : ℚ
  update_count : Nat

/-- `MaternalBrainState.DAMPENING_FACTOR = 0.7`. -/
def DAMPENING_FACTOR : ℚ := 7/10

/-- `MaternalBrainState.MIN_CONFIDENCE_TO_ACT = 0.7`. -/
def MIN_CONFIDENCE_TO_ACT : ℚ := 7/10

/-- `MaternalBrainState.__init__`: all beliefs and confidences default 0.5. -/
def MaternalBrainState.init (pregnancy_stage : Option String)
    (breastfeeding : Bool) (age : Option Int) (now : ℚ) :
    MaternalBrainState :=
  { nutrition := [("iron", 1/2), ("protein", 1/2), ("calcium", 1/2),
      ("folic", 1/2), ("vitamin_b12", 1/2), ("iodine", 1/2)]
    energy_level := 1/2
    hydration_level := 1/2
    sleep_quality := 1/2
    stress_level := 1/2
    pregnancy_stage := pregnancy_stage
    breastfeeding := breastfeeding
    age := age
    symptoms := []
    confidence_in_state := [("iron", 1/2), ("protein", 1/2), ("calcium", 1/2),
      ("folic", 1/2), ("vitamin_b12", 1/2), ("iodine", 1/2)]
    last_action := none
    last_action_date := none
    created_at := now
    last_updated := now
    update_count := 0 }

/-- `MaternalBrainState.apply_ml_signal(nutrient, ml_prediction,
model_confidence)`: unknown nutrient is a logged no-op; otherwise the
prediction is clamped, the belief is damped
(`0.7*old + 0.3*prediction`), the confidence is blended
(`0.5*old + 0.5*model_confidence` — the source does not clamp
`model_confidence`), and `update_count` is incremented. -/
def MaternalBrainState.apply_ml_signal (s : MaternalBrainState)
    (nutrient : String) (ml_prediction model_confidence now : ℚ) :
    MaternalBrainState :=
  match lookupQ s.nutrition nutrient with
  | none => s
  | some old_belief =>
    let prediction := clamp01 ml_prediction
    let new_belief :=
      DAMPENING_FACTOR * old_belief + (1 - DAMPENING_FACTOR) * prediction
    let new_confidence :=
      1/2 * (lookupQ s.confidence_in_state nutrient).getD 0 +
      1/2 * model_confidence
    { s with
      nutrition := updateAssoc s.nutrition nutrient new_belief
      confidence_in_state :=
        updateAssoc s.confidence_in_state nutrient new_confidence
      last_updated := now
      update_count := s.update_count + 1 }

/-- One sensor signal: `(nutrient, ml_prediction, model_confidence, now)`. -/
structure Signal where
  nutrient : String
  ml_prediction : ℚ
  model_confidence : ℚ
  now : ℚ

/-- A finite sequence of `apply_ml_signal` calls. -/
def applySignals (s : MaternalBrainState) (sigs : List Signal) :
    MaternalBrainState :=
  sigs.foldl
    (fun st g => st.apply_ml_signal g.nutrient g.ml_prediction
      g.model_confidence g.now) s

/-- All beliefs and confidences of a state lie in `[0,1]`. -/
def stateInRange (s : MaternalBrainState) : Prop :=
  (∀ p ∈ s.nutrition, 0 ≤ p.2 ∧ p.2 ≤ 1) ∧
  (∀ p ∈ s.confidence_in_state, 0 ≤ p.2 ∧ p.2 ≤ 1)

instance (s : MaternalBrainState) : Decidable (stateInRange s) := by
  unfold stateInRange; infer_instance

/-- app/core/memory.py `Action`: one immutable logged action and its
(at first unset) outcome.  Outcome strings are `"positive"`, `"negative"`,
`"neutral"`, `"unknown"`. -/
structure Action where
  action_id : String
  timestamp : ℚ
  action_type : String
  action_text : String
  reason : String
  nutrients_targeted : List String
  outcome : Option String
  outcome_text : Option String
  outcome_recorded_at : Option ℚ

/-- app/core/memory.py `Memory`: the per-user outcome log and its derived
fast-lookup indices. -/
structure Memory where
  user_id : String
  actions : List Action
  failed_suggestions : List (String × Nat)
  successful_suggestions : List (String × Nat)
  dislikes : List String
  allergies : List String
  contraindications : List String
  recent_action_window_days : ℚ
  created_at : ℚ
  last_updated : ℚ

/-- `Memory.__init__`. -/
def Memory.init (user_id : String) (now : ℚ) : Memory :=
  { user_id := user_id
    actions := []
    failed_suggestions := []
    successful_suggestions := []
    dislikes := []
    allergies := []
    contraindications := []
    recent_action_window_days := 3
    created_at := now
    last_updated := now }

/-- `Memory.log_action`: append a fresh action (with empty outcome) built
from the arguments; the id is produced from the user id, the index and the
clock exactly as in the source f-string. -/
def Memory.log_action (m : Memory) (action_type action_text reason : String)
    (nutrients_targeted : List String) (now : ℚ) : String × Memory :=
  let action_id :=
    m.user_id ++ "_" ++ toString m.actions.length ++ "_" ++ toString now
  let a : Action :=
    { action_id := action_id
      timestamp := now
      action_type := action_type
      action_text := action_text
      reason := reason
      nutrients_targeted := nutrients_targeted
      outcome := none
      outcome_text := none
      outcome_recorded_at := none }
  (action_id, { m with actions := m.actions ++ [a], last_updated := now })

/-- The in-place mutation of the `for action in self.actions` loop in
`Memory.record_outcome`: overwrite the outcome fields of the first action
with the given id (the loop `return`s at the first match). -/
def setOutcomeFirst (action_id outcome : String) (outcome_text : Option String)
    (now : ℚ) : List Action → List Action
  | [] => []
  | a :: rest =>
      if a.action_id == action_id then
        { a with outcome := some outcome, outcome_text := outcome_text,
                 outcome_recorded_at := some now } :: rest
      else a :: setOutcomeFirst action_id outcome outcome_text now rest

/-- `Memory.record_outcome(action_id, outcome, outcome_text)`: find the first
action with this id; if none, return `False`.  Otherwise overwrite its
outcome fields (the source never tests whether `outcome` was already set),
update the success/failure counters and `dislikes` from the action's text,
and return `True`. -/
def Memory.record_outcome (m : Memory) (action_id outcome : String)
    (outcome_text : Option String) (now : ℚ) : Bool × Memory :=
  match m.actions.find? (fun a => a.action_id == action_id) with
  | none => (false, m)
  | some act =>
    let m1 := { m with
      actions := setOutcomeFirst action_id outcome outcome_text now m.actions
      last_updated := now }
    if outcome == "positive" then
      let ss := incrCount m1.successful_suggestions act.action_text
      (true, { m1 with successful_suggestions := ss })
    else if outcome == "negative" then
      let fs := incrCount m1.failed_suggestions act.action_text
      let dl := addSet m1.dislikes act.action_text
      (true, { m1 with failed_suggestions := fs, dislikes := dl })
    else (true, m1)

/-- `Memory.should_avoid_suggestion`: in `dislikes`, in `contraindications`,
or a key of `failed_suggestions`. -/
def Memory.should_avoid_suggestion (m : Memory) (suggestion : String) : Bool :=
  if suggestion ∈ m.dislikes then true
  else if suggestion ∈ m.contraindications then true
  else if (m.failed_suggestions.find? (fun p => p.1 == suggestion)).isSome
    then true
  else false

/-- Case-insensitive substring test, Python `needle.lower() in hay.lower()`. -/
def strContainsLower (hay needle : String) : Bool :=
  (hay.toLower.data.tails).any
    (fun t => (needle.toLower.data).isPrefixOf t)

/-- The backwards scan of `Memory.was_recently_suggested`, on the reversed
action list: stop at the first action older than the cutoff, otherwise match
the suggestion case-insensitively inside the action text. -/
def wasRecentAux (suggestion : String) (cutoff : ℚ) : List Action → Bool
  | [] => false
  | a :: rest =>
      if a.timestamp < cutoff then false
      else if strContainsLower a.action_text suggestion then true
      else wasRecentAux suggestion cutoff rest

/-- `Memory.was_recently_suggested`: cutoff is
`now − timedelta(days=recent_action_window_days)` (days are 24 hours). -/
def Memory.was_recently_suggested (m : Memory) (suggestion : String)
    (now : ℚ) : Bool :=
  wasRecentAux suggestion (now - 24 * m.recent_action_window_days)
    m.actions.reverse

/-- Stable insertion (ascending by count) used to model Python's stable
`sorted(..., key=lambda x: x[1], reverse=True)`: an earlier element stays
before a later one of equal count. -/
def insertDesc (p : String × Nat) : List (String × Nat) → List (String × Nat)
  | [] => [p]
  | q :: rest =>
      if q.2 ≤ p.2 then p :: q :: rest else q :: insertDesc p rest

/-- Stable sort, descending by count (model of Python `sorted` with
`reverse=True`). -/
def sortDesc : List (String × Nat) → List (String × Nat)
  | [] => []
  | p :: rest => insertDesc p (sortDesc rest)

/-- `Memory.get_successful_patterns`: `(text, count)` pairs sorted by count
descending, ties in insertion order. -/
def Memory.get_successful_patterns (m : Memory) : List (String × Nat) :=
  sortDesc m.successful_suggestions

/-- `Memory.get_failed_patterns`. -/
def Memory.get_failed_patterns (m : Memory) : List (String × Nat) :=
  sortDesc m.failed_suggestions

/-- `Memory.add_contraindication` (the reason is only logged). -/
def Memory.add_contraindication (m : Memory) (suggestion : String)
    (_reason : String) : Memory :=
  { m with contraindications := addSet m.contraindications suggestion.toLower }

/-- `Memory.add_allergy`: records the allergen and also adds it to the
contraindications. -/
def Memory.add_allergy (m : Memory) (allergen : String) : Memory :=
  { m with allergies := addSet m.allergies allergen.toLower
           contraindications := addSet m.contraindications allergen.toLower }

/-- app/core/safety.py `SafetyChecker`: immutable rule tables plus the two
per-cycle accumulators `violations` and `alerts`. -/
structure SafetyChecker where
  violations : List String
  alerts : List String

/-- `SafetyChecker.__init__`. -/
def SafetyChecker.init : SafetyChecker :=
  { violations := [], alerts := [] }

/-- `SafetyChecker.UNSAFE_FOODS_PREGNANCY`. -/
def UNSAFE_FOODS_PREGNANCY : List String :=
  ["raw_milk", "unpasteurized_cheese", "raw_eggs", "high_mercury_fish",
   "pâté", "undercooked_meat", "alcohol", "raw_sprouts",
   "unwashed_vegetables"]

/-- `SafetyChecker.UNSAFE_FOODS_BREASTFEEDING`. -/
def UNSAFE_FOODS_BREASTFEEDING : List String :=
  ["sage", "peppermint_tea_excess", "parsley_excess", "alcohol"]

/-- `SafetyChecker.UNSAFE_MEDICATIONS`. -/
def UNSAFE_MEDICATIONS : List String :=
  ["aspirin", "ibuprofen", "naproxen", "warfarin", "retinol_high_dose",
   "methotrexate", "lisinopril", "ace_inhibitors"]

/-- `SafetyChecker.CRITICAL_SYMPTOMS`. -/
def CRITICAL_SYMPTOMS : List String :=
  ["severe_bleeding", "severe_abdominal_pain", "sudden_severe_headache",
   "vision_changes", "seizures", "loss_of_consciousness",
   "severe_allergic_reaction"]

/-- `SafetyChecker.WARNING_SYMPTOMS`. -/
def WARNING_SYMPTOMS : List String :=
  ["persistent_vomiting", "severe_dizziness", "swelling_with_headache",
   "chest_pain", "shortness_of_breath"]

/-- `SafetyChecker.check_food_safety(food, pregnancy_stage, breastfeeding)`.
The Python guard `if pregnancy_stage and pregnancy_stage != "planning"`
treats `None` and the empty string as falsy.  Returns the
`(is_safe, reason)` pair together with the checker (whose `violations` the
source mutates). -/
def SafetyChecker.check_food_safety (c : SafetyChecker) (food : String)
    (pregnancy_stage : Option String) (breastfeeding : Bool) :
    (Bool × Option String) × SafetyChecker :=
  let food_lower := food.toLower
  let stage_truthy :=
    match pregnancy_stage with
    | none => false
    | some st => st != "" && st != "planning"
  if stage_truthy && food_lower ∈ UNSAFE_FOODS_PREGNANCY then
    let reason := "⚠️ " ++ food ++ " is not safe during pregnancy"
    ((false, some reason), { c with violations := c.violations ++ [reason] })
  else if breastfeeding && food_lower ∈ UNSAFE_FOODS_BREASTFEEDING then
    let reason :=
      "⚠️ " ++ food ++ " may affect milk supply during breastfeeding"
    ((false, some reason), { c with violations := c.violations ++ [reason] })
  else ((true, none), c)

/-- `SafetyChecker.check_medication_safety(medication)`: a listed medication
is rejected with a critical violation entry; every other medication is also
rejected by the general "never suggest medications" rule. -/
def SafetyChecker.check_medication_safety (c : SafetyChecker)
    (medication : String) : (Bool × Option String) × SafetyChecker :=
  let med_lower := medication.toLower
  if med_lower ∈ UNSAFE_MEDICATIONS then
    let reason := "SAFETY VIOLATION: Cannot suggest " ++ medication ++
      " to pregnant women"
    ((false, some reason), { c with violations := c.violations ++ [reason] })
  else
    ((false, some ("System is not authorized to suggest medications. " ++
      "Recommend consulting doctor.")), c)

/-- `SafetyChecker.check_critical_symptom(symptom)`: a critical symptom is
blocking (`False`, alert appended); a warning symptom appends an alert but
does not block; anything else is `(True, None)`. -/
def SafetyChecker.check_critical_symptom (c : SafetyChecker)
    (symptom : String) : (Bool × Option String) × SafetyChecker :=
  let symptom_lower := symptom.toLower
  if symptom_lower ∈ CRITICAL_SYMPTOMS then
    let alert := "🚨 CRITICAL: User reported " ++ symptom ++
      ". ALERT MEDICAL PROFESSIONAL."
    ((false, some alert), { c with alerts := c.alerts ++ [alert] })
  else if symptom_lower ∈ WARNING_SYMPTOMS then
    let alert := "⚠️ WARNING: User reported " ++ symptom ++
      ". Monitor and suggest medical consultation."
    ((true, some alert), { c with alerts := c.alerts ++ [alert] })
  else ((true, none), c)

/-- The local `alerts` list that `SafetyChecker.check_state_for_alerts`
accumulates: one entry for critically low nutrients (belief below 0.2 at
confidence above 0.8), one for persistent fatigue with poor sleep. -/
def stateAlertList (state : MaternalBrainState) : List String :=
  let critical_nutrients :=
    (state.nutrition.filter (fun p =>
      p.2 < 1/5 && (lookupQ state.confidence_in_state p.1).getD 0 > 4/5)).map
      Prod.fst
  let alerts1 : List String :=
    if critical_nutrients.isEmpty then []
    else ["Multiple critical nutrients detected: " ++
      String.intercalate ", " critical_nutrients ++
      ". Suggest blood test and doctor consultation."]
  if state.energy_level < 3/10 && state.sleep_quality < 3/10 then
    alerts1 ++
      ["Persistent fatigue with poor sleep. Suggest doctor consultation."]
  else alerts1

/-- `SafetyChecker.check_state_for_alerts(state)`: if `stateAlertList` is
non-empty, its entries are joined into a combined alert appended to
`alerts`; otherwise `None` and the checker is untouched. -/
def SafetyChecker.check_state_for_alerts (c : SafetyChecker)
    (state : MaternalBrainState) : Option String × SafetyChecker :=
  if (stateAlertList state).isEmpty then (none, c)
  else
    let combined := String.intercalate " | " (stateAlertList state)
    (some combined, { c with alerts := c.alerts ++ [combined] })

/-- app/core/reasoning.py `ActionType`. -/
inductive ActionType where
  | SUGGEST_FOOD
  | SUGGEST_WATER
  | SUGGEST_REST
  | ASK_QUESTION
  | OBSERVE
  | ALERT_MEDICAL
  | CHECK_IN
deriving DecidableEq

/-- A value in an action-details dict (the source stores strings and
numbers). -/
inductive DetailVal where
  | str : String → DetailVal
  | num : ℚ → DetailVal
deriving DecidableEq

/-- The free-form `details` dict of a decision. -/
abbrev Details := List (String × DetailVal)

/-- Read a string-valued detail. -/
def detailStr (d : Details) (k : String) : Option String :=
  match d.find? (fun p => p.1 == k) with
  | some (_, DetailVal.str v) => some v
  | _ => none

namespace ReasoningEngine

/-- `ReasoningEngine.CRITICAL_THRESHOLD = 0.25`. -/
def CRITICAL_THRESHOLD : ℚ := 1/4

/-- `ReasoningEngine.LOW_THRESHOLD = 0.40`. -/
def LOW_THRESHOLD : ℚ := 2/5

/-- `ReasoningEngine.ADEQUATE_THRESHOLD = 0.70`. -/
def ADEQUATE_THRESHOLD : ℚ := 7/10

end ReasoningEngine

/-- Stable insertion (ascending by belief value), modelling Python's stable
`sorted(..., key=lambda x: x[1])`: an earlier element stays before a later
one of equal value. -/
def insertAsc (p : String × ℚ) : List (String × ℚ) → List (String × ℚ)
  | [] => [p]
  | q :: rest =>
      if p.2 ≤ q.2 then p :: q :: rest else q :: insertAsc p rest

/-- Stable ascending sort by value (model of Python `sorted`). -/
def sortAsc : List (String × ℚ) → List (String × ℚ)
  | [] => []
  | p :: rest => insertAsc p (sortAsc rest)

/-- Modelled from the spec: the first element of the list attaining the
minimal belief value (lowest belief wins, ties resolved by input order). -/
def firstMinBy : List (String × ℚ) → Option (String × ℚ)
  | [] => none
  | p :: rest =>
      match firstMinBy rest with
      | none => some p
      | some q => if p.2 ≤ q.2 then some p else some q

namespace ReasoningEngine

/-- `ReasoningEngine._find_pressing_nutrient(state)`: among nutrients with
confidence above 0.7, take the lowest-belief critical one
(belief < 0.25), else the lowest-belief low one (0.25 ≤ belief < 0.40),
else `None`. -/
def find_pressing_nutrient (state : MaternalBrainState) : Option String :=
  let items := state.nutrition.filter (fun p =>
    (lookupQ state.confidence_in_state p.1).getD 0 > 7/10)
  if items.isEmpty then none
  else
    let critical := sortAsc (items.filter (fun p => p.2 < CRITICAL_THRESHOLD))
    match critical.head? with
    | some p => some p.1
    | none =>
      let low := sortAsc (items.filter (fun p =>
        CRITICAL_THRESHOLD ≤ p.2 && p.2 < LOW_THRESHOLD))
      low.head?.map Prod.fst

/-- Modelled from the spec: the pressing-nutrient rule as the spec words it
— restrict to confidence > 0.7, choose the first minimum of the critical
band, else the first minimum of the low band. -/
def pressingSpec (state : MaternalBrainState) : Option String :=
  let items := state.nutrition.filter (fun p =>
    (lookupQ state.confidence_in_state p.1).getD 0 > 7/10)
  match firstMinBy (items.filter (fun p => p.2 < CRITICAL_THRESHOLD)) with
  | some p => some p.1
  | none =>
    (firstMinBy (items.filter (fun p =>
      CRITICAL_THRESHOLD ≤ p.2 && p.2 < LOW_THRESHOLD))).map Prod.fst

/-- `ReasoningEngine._get_foods_for_nutrient(nutrient)`: the static food
table. -/
def get_foods_for_nutrient (nutrient : String) : List String :=
  match nutrient with
  | "iron" => ["spinach", "red_meat", "lentils", "fortified_cereal",
      "pumpkin_seeds"]
  | "protein" => ["eggs", "chicken", "yogurt", "milk", "beans", "nuts",
      "fish"]
  | "calcium" => ["milk", "yogurt", "cheese", "fortified_milk",
      "dark_leafy_greens"]
  | "folic" => ["spinach", "broccoli", "lentils", "asparagus",
      "fortified_grains"]
  | "vitamin_b12" => ["eggs", "milk", "cheese", "meat", "fortified_cereals"]
  | "iodine" => ["iodized_salt", "fish", "seaweed", "eggs", "dairy"]
  | _ => []

/-- The `for food in candidates` loop of
`ReasoningEngine._suggest_for_nutrient`: skip avoided, recently suggested
and unsafe candidates; the first survivor becomes a `SUGGEST_FOOD`; an empty
remainder becomes the nutrient-specific `CHECK_IN`. -/
def candidateLoop (nutrient : String) (state : MaternalBrainState)
    (memory : Memory) (now : ℚ) :
    SafetyChecker → List String → (ActionType × Details × String) × SafetyChecker
  | c, [] =>
      ((ActionType.CHECK_IN,
        [("question", DetailVal.str ("How have you been feeling about your "
          ++ nutrient ++ " intake?"))],
        "No safe/valid food candidates for " ++ nutrient ++
        ". Need user feedback."), c)
  | c, food :: rest =>
      if memory.should_avoid_suggestion food then
        candidateLoop nutrient state memory now c rest
      else if memory.was_recently_suggested food now then
        candidateLoop nutrient state memory now c rest
      else
        let r := c.check_food_safety food state.pregnancy_stage
          state.breastfeeding
        if r.1.1 then
          ((ActionType.SUGGEST_FOOD,
            [("nutrient", DetailVal.str nutrient),
             ("food", DetailVal.str food),
             ("reason", DetailVal.str ("Your " ++ nutrient ++
               " levels seem low"))],
            "Suggesting " ++ food ++ " to address " ++ nutrient), r.2)
        else candidateLoop nutrient state memory now r.2 rest

/-- `ReasoningEngine._suggest_for_nutrient`: candidates are the previously
successful foods known for this nutrient (by success count descending,
stable) followed by the remaining foods of the static table, scanned by
`candidateLoop`. -/
def suggest_for_nutrient (nutrient : String) (state : MaternalBrainState)
    (memory : Memory) (c : SafetyChecker) (now : ℚ) :
    (ActionType × Details × String) × SafetyChecker :=
  let successful := memory.get_successful_patterns
  let foods_for_nutrient := get_foods_for_nutrient nutrient
  let successful_foods :=
    (successful.filter (fun p => p.1 ∈ foods_for_nutrient)).map Prod.fst
  let remaining_foods :=
    foods_for_nutrient.filter (fun f => f ∉ successful_foods)
  candidateLoop nutrient state memory now c
    (successful_foods ++ remaining_foods)

/-- `ReasoningEngine._suggest_lifestyle`: rest on low energy and poor sleep,
water on low hydration, else `OBSERVE` (the fall-through marker). -/
def suggest_lifestyle (state : MaternalBrainState) (c : SafetyChecker) :
    (ActionType × Details × String) × SafetyChecker :=
  if state.energy_level < 2/5 && state.sleep_quality < 1/2 then
    ((ActionType.SUGGEST_REST,
      [("suggestion", DetailVal.str "Try to get more sleep tonight")],
      "Low energy and poor sleep detected"), c)
  else if state.hydration_level < 2/5 then
    ((ActionType.SUGGEST_WATER,
      [("glasses", DetailVal.num 3),
       ("timing", DetailVal.str "throughout the day")],
      "Hydration levels low"), c)
  else ((ActionType.OBSERVE, [], "No urgent action"), c)

/-- `ReasoningEngine._should_take_action_today`: no previous action, or
strictly more than 20 hours elapsed. -/
def should_take_action_today (state : MaternalBrainState) (now : ℚ) : Bool :=
  match state.last_action_date with
  | none => true
  | some t => if 20 < now - t then true else false

/-- The step-2 loop of `decide`: run `check_critical_symptom` over the
reported symptoms in order, returning the first blocking symptom with its
alert message (warning symptoms append alerts and continue). -/
def symptomScan : SafetyChecker → List String →
    Option (String × String) × SafetyChecker
  | c, [] => (none, c)
  | c, sym :: rest =>
      let r := c.check_critical_symptom sym
      if r.1.1 then symptomScan r.2 rest
      else (some (sym, (r.1.2).getD ""), r.2)

/-- Steps 5–6 of `decide`: the lifestyle fallback, then the default
check-in. -/
def decideTail (state : MaternalBrainState) (c : SafetyChecker) :
    (ActionType × Details × String) × SafetyChecker :=
  let r := suggest_lifestyle state c
  if r.1.1 ≠ ActionType.OBSERVE then r
  else
    ((ActionType.CHECK_IN,
      [("question", DetailVal.str "How are you feeling today?")],
      "Regular check-in to understand current state."), r.2)

/-- `ReasoningEngine.decide(state, memory, safety)`: the priority-ordered
policy.  Step 1 fires when the state scan returns an alert **or** the
checker's alert list is non-empty; step 2 scans symptoms; step 3 is the
20-hour rate limit; step 4/5 is the pressing-nutrient food search; steps
5–6 are `decideTail`.  The mutated checker is returned alongside the
decision triple. -/
def decide (state : MaternalBrainState) (memory : Memory)
    (safety : SafetyChecker) (now : ℚ) :
    (ActionType × Details × String) × SafetyChecker :=
  let ar := safety.check_state_for_alerts state
  if ar.1.isSome || !ar.2.alerts.isEmpty then
    ((ActionType.ALERT_MEDICAL,
      [("alert", DetailVal.str (match ar.1 with
        | some a => a
        | none => ar.2.alerts.headD ""))],
      "Critical state detected. Medical consultation needed."), ar.2)
  else
    match symptomScan ar.2 state.symptoms with
    | (some (sym, msg), c2) =>
        ((ActionType.ALERT_MEDICAL,
          [("symptom", DetailVal.str sym), ("alert", DetailVal.str msg)],
          "Critical symptom: " ++ sym), c2)
    | (none, c2) =>
      if !should_take_action_today state now then
        ((ActionType.OBSERVE,
          [("reason", DetailVal.str "No urgent action needed")],
          "System observing. No action needed today."), c2)
      else
        match find_pressing_nutrient state with
        | some nutrient =>
            let r := suggest_for_nutrient nutrient state memory c2 now
            if r.1.1 ≠ ActionType.OBSERVE then r else decideTail state r.2
        | none => decideTail state c2

end ReasoningEngine

/-- The plain dict produced by `MaternalBrainState.to_dict` (isoformat
time-stamps are modelled by the rational time value itself). -/
structure StateDict where
  nutrition : List (String × ℚ)
  energy_level : ℚ
  hydration_level : ℚ
  sleep_quality : ℚ
  stress_level : ℚ
  pregnancy_stage : Option String
  breastfeeding : Bool
  age : Option Int
  symptoms : List String
  confidence_in_state : List (String × ℚ)
  last_action : Option String
  last_action_date : Option ℚ
  created_at : ℚ
  last_updated : ℚ
  update_count : Nat

/-- `MaternalBrainState.to_dict`. -/
def MaternalBrainState.to_dict (s : MaternalBrainState) : StateDict :=
  { nutrition := s.nutrition
    energy_level := s.energy_level
    hydration_level := s.hydration_level
    sleep_quality := s.sleep_quality
    stress_level := s.stress_level
    pregnancy_stage := s.pregnancy_stage
    breastfeeding := s.breastfeeding
    age := s.age
    symptoms := s.symptoms
    confidence_in_state := s.confidence_in_state
    last_action := s.last_action
    last_action_date := s.last_action_date
    created_at := s.created_at
    last_updated := s.last_updated
    update_count := s.update_count }

/-- `MaternalBrainState.from_dict`: constructs a default state and then
overrides every field present in the dict (`to_dict` always emits every
field). -/
def MaternalBrainState.from_dict (d : StateDict) : MaternalBrainState :=
  { nutrition := d.nutrition
    energy_level := d.energy_level
    hydration_level := d.hydration_level
    sleep_quality := d.sleep_quality
    stress_level := d.stress_level
    pregnancy_stage := d.pregnancy_stage
    breastfeeding := d.breastfeeding
    age := d.age
    symptoms := d.symptoms
    confidence_in_state := d.confidence_in_state
    last_action := d.last_action
    last_action_date := d.last_action_date
    created_at := d.created_at
    last_updated := d.last_updated
    update_count := d.update_count }

/-- The dict produced by `Action.to_dict` (`asdict` plus isoformat
time-stamps, modelled by the rational time value). -/
structure ActionDict where
  action_id : String
  timestamp : ℚ
  action_type : String
  action_text : String
  reason : String
  nutrients_targeted : List String
  outcome : Option String
  outcome_text : Option String
  outcome_recorded_at : Option ℚ

/-- `Action.to_dict`. -/
def Action.to_dict (a : Action) : ActionDict :=
  { action_id := a.action_id
    timestamp := a.timestamp
    action_type := a.action_type
    action_text := a.action_text
    reason := a.reason
    nutrients_targeted := a.nutrients_targeted
    outcome := a.outcome
    outcome_text := a.outcome_text
    outcome_recorded_at := a.outcome_recorded_at }

/-- `Action.from_dict`. -/
def Action.from_dict (d : ActionDict) : Action :=
  { action_id := d.action_id
    timestamp := d.timestamp
    action_type := d.action_type
    action_text := d.action_text
    reason := d.reason
    nutrients_targeted := d.nutrients_targeted
    outcome := d.outcome
    outcome_text := d.outcome_text
    outcome_recorded_at := d.outcome_recorded_at }

/-- The dict produced by `Memory.to_dict`.  Note that
`recent_action_window_days` is **not** serialized. -/
structure MemoryDict where
  user_id : String
  actions : List ActionDict
  failed_suggestions : List (String × Nat)
  successful_suggestions : List (String × Nat)
  dislikes : List String
  allergies : List String
  contraindications : List String
  created_at : ℚ
  last_updated : ℚ

/-- `Memory.to_dict`. -/
def Memory.to_dict (m : Memory) : MemoryDict :=
  { user_id := m.user_id
    actions := m.actions.map Action.to_dict
    failed_suggestions := m.failed_suggestions
    successful_suggestions := m.successful_suggestions
    dislikes := m.dislikes
    allergies := m.allergies
    contraindications := m.contraindications
    created_at := m.created_at
    last_updated := m.last_updated }

/-- `Memory.from_dict`: builds `cls(user_id)` (so
`recent_action_window_days` is re-initialized to 3) and restores the
serialized fields. -/
def Memory.from_dict (d : MemoryDict) : Memory :=
  { user_id := d.user_id
    actions := d.actions.map Action.from_dict
    failed_suggestions := d.failed_suggestions
    successful_suggestions := d.successful_suggestions
    dislikes := d.dislikes
    allergies := d.allergies
    contraindications := d.contraindications
    recent_action_window_days := 3
    created_at := d.created_at
    last_updated := d.last_updated }

/-- One mutating `Memory` operation, used to reason about every later
decision cycle in a run (the class has exactly these four mutators). -/
inductive MemOp where
  | log (action_type action_text reason : String)
      (nutrients_targeted : List String) (now : ℚ)
  | record (action_id outcome : String) (outcome_text : Option String)
      (now : ℚ)
  | contra (suggestion reason : String)
  | allergy (allergen : String)

/-- Apply one memory operation. -/
def applyOp (m : Memory) : MemOp → Memory
  | MemOp.log t x r n now => (m.log_action t x r n now).2
  | MemOp.record aid o txt now => (m.record_outcome aid o txt now).2
  | MemOp.contra s r => m.add_contraindication s r
  | MemOp.allergy a => m.add_allergy a

/-- Apply a finite sequence of memory operations. -/
def applyOps (m : Memory) (ops : List MemOp) : Memory :=
  ops.foldl applyOp m

/-- Step-1 condition of `decide` as the source computes it: the state scan
returned an alert, or the checker's alert list is non-empty after the scan. -/
def step1Fires (c : SafetyChecker) (s : MaternalBrainState) : Bool :=
  ((c.check_state_for_alerts s).1).isSome ||
    !((c.check_state_for_alerts s).2).alerts.isEmpty

/-- Some reported symptom is in the critical-symptom table. -/
def hasCriticalSymptom (s : MaternalBrainState) : Bool :=
  s.symptoms.any
    (fun sym => if sym.toLower ∈ CRITICAL_SYMPTOMS then true else false)

/- Concrete example values used by witnesses and counterexamples. -/

/-- A fresh default belief state (all beliefs and confidences 0.5). -/
def exState0 : MaternalBrainState := MaternalBrainState.init none false none 0

/-- A fresh empty memory. -/
def exMemory0 : Memory := Memory.init "u" 0

/-- A fresh checker. -/
def exChecker0 : SafetyChecker := SafetyChecker.init

/-- A checker carrying an uncleared alert from a previous cycle. -/
def exCheckerAlert : SafetyChecker := { violations := [], alerts := ["leftover"] }

/-- One logged spinach suggestion with no outcome yet. -/
def exAction : Action :=
  { action_id := "u_0_0", timestamp := 0, action_type := "suggest_food",
    action_text := "spinach", reason := "iron low",
    nutrients_targeted := ["iron"], outcome := none, outcome_text := none,
    outcome_recorded_at := none }

/-- A memory holding exactly `exAction`. -/
def exMemoryA : Memory := { exMemory0 with actions := [exAction] }

/-- A state whose only pressing nutrient is iron (belief 0.35 at
confidence 0.9). -/
def exStateIron : MaternalBrainState :=
  { exState0 with
    nutrition := updateAssoc exState0.nutrition "iron" (35/100)
    confidence_in_state :=
      updateAssoc exState0.confidence_in_state "iron" (9/10) }

/-- `exStateIron` with an action taken 10 hours before `now = 100`. -/
def exStateCooldown : MaternalBrainState :=
  { exStateIron with last_action_date := some 90 }

/- ------------------------------------------------------------------ -/
/- Theorems.                                                           -/
/- ------------------------------------------------------------------ -/

theorem lookupQ_updateAssoc_isSome (l : List (String × ℚ)) (k : String)
    (v : ℚ) (h : (lookupQ l k).isSome) :
    lookupQ (updateAssoc l k v) k = some v := by
  induction l with
  | nil => simp [lookupQ] at h
  | cons p rest ih =>
    by_cases hk : p.1 == k
    · simp [lookupQ, updateAssoc, List.find?, hk]
    · simp only [lookupQ, updateAssoc, List.map, List.find?, hk,
        if_neg, Bool.false_eq_true, reduceIte] at h ⊢
      exact ih (by simpa [lookupQ] using h)

/-- C5 — `apply_ml_signal` on a known nutrient with belief `b0` and
confidence `c0` sets belief to exactly `0.7*b0 + 0.3*clamp(p, 0, 1)`,
confidence to exactly `0.5*c0 + 0.5*c`, and increments `update_count`. -/
theorem apply_ml_signal_exact (s : MaternalBrainState) (n : String)
    (p c now b0 c0 : ℚ)
    (hb : lookupQ s.nutrition n = some b0)
    (hc : lookupQ s.confidence_in_state n = some c0) :
    lookupQ (s.apply_ml_signal n p c now).nutrition n
        = some (7/10 * b0 + 3/10 * clamp01 p) ∧
    lookupQ (s.apply_ml_signal n p c now).confidence_in_state n
        = some (1/2 * c0 + 1/2 * c) ∧
    (s.apply_ml_signal n p c now).update_count = s.update_count + 1 := by
  unfold MaternalBrainState.apply_ml_signal
  rw [hb]
  refine ⟨?_, ?_, rfl⟩
  · rw [lookupQ_updateAssoc_isSome _ _ _ (by rw [hb]; rfl)]
    norm_num [DAMPENING_FACTOR]
  · rw [lookupQ_updateAssoc_isSome _ _ _ (by rw [hc]; rfl), hc]
    norm_num

/-- Witness for C5: the default state at nutrient `iron`
(`b0 = c0 = 0.5`), with an out-of-range prediction 2 and model
confidence 0.9. -/
theorem apply_ml_signal_exact_witness :
    lookupQ exState0.nutrition "iron" = some (1/2) ∧
    lookupQ exState0.confidence_in_state "iron" = some (1/2) ∧
    lookupQ (exState0.apply_ml_signal "iron" 2 (9/10) 5).nutrition "iron"
        = some (7/10 * (1/2) + 3/10 * clamp01 2) ∧
    lookupQ (exState0.apply_ml_signal "iron" 2 (9/10) 5).confidence_in_state
        "iron" = some (1/2 * (1/2) + 1/2 * (9/10)) ∧
    (exState0.apply_ml_signal "iron" 2 (9/10) 5).update_count
        = exState0.update_count + 1 := by
  have h := apply_ml_signal_exact exState0 "iron" 2 (9/10) 5 (1/2) (1/2)
    rfl rfl
  exact ⟨rfl, rfl, h.1, h.2.1, h.2.2⟩

/-- C7 — `check_medication_safety` never approves: for every medication
it returns `False` with a non-null reason, listed or not. -/
theorem check_medication_never_safe (c : SafetyChecker) (med : String) :
    (c.check_medication_safety med).1.1 = false ∧
    ((c.check_medication_safety med).1.2).isSome = true := by
  unfold SafetyChecker.check_medication_safety
  by_cases h : med.toLower ∈ UNSAFE_MEDICATIONS <;> simp [h]

/-- C8 — `decide` is deterministic: equal belief state, memory, checker
and clock value give an identical decision triple. -/
theorem decide_deterministic (s1 s2 : MaternalBrainState) (m1 m2 : Memory)
    (c1 c2 : SafetyChecker) (t1 t2 : ℚ)
    (hs : s1 = s2) (hm : m1 = m2) (hc : c1 = c2) (ht : t1 = t2) :
    (ReasoningEngine.decide s1 m1 c1 t1).1
      = (ReasoningEngine.decide s2 m2 c2 t2).1 := by
  subst hs; subst hm; subst hc; subst ht; rfl

/-- Witness for C8 at a concrete state, memory, checker and clock. -/
theorem decide_deterministic_witness :
    (ReasoningEngine.decide exStateIron exMemoryA exChecker0 100).1
      = (ReasoningEngine.decide exStateIron exMemoryA exChecker0 100).1 :=
  decide_deterministic exStateIron exStateIron exMemoryA exMemoryA
    exChecker0 exChecker0 100 100 rfl rfl rfl rfl

theorem check_state_cases (c : SafetyChecker) (s : MaternalBrainState) :
    c.check_state_for_alerts s = (none, c) ∨
    ((c.check_state_for_alerts s).1).isSome = true := by
  unfold SafetyChecker.check_state_for_alerts
  by_cases h : (stateAlertList s).isEmpty <;> simp [h]

theorem check_state_none_checker (c : SafetyChecker)
    (s : MaternalBrainState)
    (h : (c.check_state_for_alerts s).1 = none) :
    (c.check_state_for_alerts s).2 = c := by
  rcases check_state_cases c s with heq | hsome
  · rw [heq]
  · rw [h] at hsome
    simp at hsome

/-- C10 — a non-empty alert list at the moment `decide` is called makes
step 1 return `ALERT_MEDICAL`, even when `check_state_for_alerts` itself
returns `None` for the current state. -/
theorem decide_alert_on_leftover_alerts (s : MaternalBrainState)
    (m : Memory) (c : SafetyChecker) (now : ℚ)
    (h1 : c.alerts ≠ [])
    (h2 : (c.check_state_for_alerts s).1 = none) :
    (ReasoningEngine.decide s m c now).1.1 = ActionType.ALERT_MEDICAL := by
  have hcs : c.check_state_for_alerts s = (none, c) := by
    rcases check_state_cases c s with heq | hsome
    · exact heq
    · rw [h2] at hsome; simp at hsome
  unfold ReasoningEngine.decide
  rw [hcs]
  cases halerts : c.alerts with
  | nil => exact absurd halerts h1
  | cons a t => simp [halerts]

/-- Witness for C10: a fresh default state (whose scan is `None`) with an
uncleared alert from a previous cycle. -/
theorem decide_alert_on_leftover_alerts_witness :
    exCheckerAlert.alerts ≠ [] ∧
    (exCheckerAlert.check_state_for_alerts exState0).1 = none ∧
    (ReasoningEngine.decide exState0 exMemory0 exCheckerAlert 100).1.1
      = ActionType.ALERT_MEDICAL := by
  have hscan : (exCheckerAlert.check_state_for_alerts exState0).1 = none := by
    norm_num [SafetyChecker.check_state_for_alerts, stateAlertList, exState0,
      exCheckerAlert, MaternalBrainState.init, lookupQ, List.filter,
      List.find?]
  exact ⟨by decide, hscan,
    decide_alert_on_leftover_alerts exState0 exMemory0 exCheckerAlert 100
      (by decide) hscan⟩

/-- C1 counterexample — the claim says a second `record_outcome` on the
same id returns `False` and does not double-count; on the code the second
call returns `True` and the success count for "spinach" reaches 2. -/
theorem record_outcome_double_call_cex :
    (exMemoryA.record_outcome "u_0_0" "positive" none 1).1 = true ∧
    ((exMemoryA.record_outcome "u_0_0" "positive" none 1).2.record_outcome
      "u_0_0" "positive" none 2).1 = true ∧
    getCount ((exMemoryA.record_outcome "u_0_0" "positive" none
      1).2.record_outcome "u_0_0" "positive" none 2).2.successful_suggestions
      "spinach" = 2 := by
  refine ⟨by decide, by decide, by decide⟩

/-- C1 (amended) — `record_outcome` returns `False` exactly when no
action with the given id exists; whenever a matching action exists the call
returns `True`, whether or not an outcome was already set (and, as the
counterexample shows, a repeated call overwrites the outcome and increments
the derived counts again). -/
theorem record_outcome_found_iff (m : Memory) (aid outcome : String)
    (txt : Option String) (now : ℚ) :
    (m.record_outcome aid outcome txt now).1
      = m.actions.any (fun a => a.action_id == aid) := by
  unfold Memory.record_outcome
  cases h : m.actions.find? (fun a => a.action_id == aid) with
  | none =>
    rw [List.find?_eq_none] at h
    simp only []
    symm
    rw [Bool.eq_false_iff, Ne, List.any_eq_true]
    rintro ⟨a, ha, hpa⟩
    exact h a ha hpa
  | some act =>
    have hmem := List.mem_of_find?_eq_some h
    have hpred := List.find?_some h
    have hany : m.actions.any (fun a => a.action_id == aid) = true :=
      List.any_eq_true.mpr ⟨act, hmem, hpred⟩
    rw [hany]
    split_ifs <;> rfl

theorem insertAsc_head (p : String × ℚ) (l : List (String × ℚ)) :
    (insertAsc p l).head? = some (match l.head? with
      | none => p
      | some q => if p.2 ≤ q.2 then p else q) := by
  cases l with
  | nil => rfl
  | cons q rest =>
    unfold insertAsc
    by_cases h : p.2 ≤ q.2 <;> simp [h]

theorem sortAsc_head (l : List (String × ℚ)) :
    (sortAsc l).head? = firstMinBy l := by
  induction l with
  | nil => rfl
  | cons p rest ih =>
    unfold sortAsc firstMinBy
    rw [insertAsc_head, ih]
    cases hh : firstMinBy rest with
    | none => simp
    | some q => by_cases h : p.2 ≤ q.2 <;> simp [h]

/-- C4 — the pressing-nutrient selection of the source equals the
spec-side rule: restrict to confidence > 0.7; if any such nutrient has
belief < 0.25 take the first one of minimal belief, else the first of
minimal belief among those with 0.25 ≤ belief < 0.40, else none —
lowest belief wins and ties go to the earlier nutrient in map insertion
order. -/
theorem find_pressing_eq_spec (s : MaternalBrainState) :
    ReasoningEngine.find_pressing_nutrient s
      = ReasoningEngine.pressingSpec s := by
  unfold ReasoningEngine.find_pressing_nutrient ReasoningEngine.pressingSpec
  by_cases h : (s.nutrition.filter (fun p =>
      (lookupQ s.confidence_in_state p.1).getD 0 > 7/10)).isEmpty
  · have hnil := List.isEmpty_iff.mp h
    simp [h, hnil, firstMinBy]
  · simp only [h, Bool.false_eq_true, if_false]
    rw [sortAsc_head, sortAsc_head]

theorem check_critical_symptom_fst (c : SafetyChecker) (sym : String) :
    (c.check_critical_symptom sym).1.1
      = (if sym.toLower ∈ CRITICAL_SYMPTOMS then false else true) := by
  unfold SafetyChecker.check_critical_symptom
  by_cases h1 : sym.toLower ∈ CRITICAL_SYMPTOMS
  · simp [h1]
  · by_cases h2 : sym.toLower ∈ WARNING_SYMPTOMS <;> simp [h1, h2]

theorem symptomScan_isSome (c : SafetyChecker) (l : List String) :
    ((ReasoningEngine.symptomScan c l).1).isSome
      = l.any (fun sym =>
          if sym.toLower ∈ CRITICAL_SYMPTOMS then true else false) := by
  induction l generalizing c with
  | nil => rfl
  | cons sym rest ih =>
    unfold ReasoningEngine.symptomScan
    by_cases h : sym.toLower ∈ CRITICAL_SYMPTOMS
    · simp [check_critical_symptom_fst, h]
    · simp [check_critical_symptom_fst, h, ih]

/-- C3 — with `lastActionAt` set and `now − lastActionAt ≤ 20` hours,
`decide` returns `OBSERVE` whatever the nutrient beliefs are, except that
the step-1 state-wide alert and the step-2 critical-symptom check still
fire `ALERT_MEDICAL` through the cooldown. -/
theorem decide_rate_limited (s : MaternalBrainState) (m : Memory)
    (c : SafetyChecker) (now t : ℚ)
    (h1 : s.last_action_date = some t) (h2 : now - t ≤ 20) :
    (ReasoningEngine.decide s m c now).1.1 =
      (if (step1Fires c s || hasCriticalSymptom s) = true
        then ActionType.ALERT_MEDICAL else ActionType.OBSERVE) := by
  have hobs : ReasoningEngine.should_take_action_today s now = false := by
    unfold ReasoningEngine.should_take_action_today
    rw [h1]
    show (if 20 < now - t then true else false) = false
    rw [if_neg (not_lt.mpr (by linarith))]
  unfold ReasoningEngine.decide step1Fires
  by_cases hstep1 : ((c.check_state_for_alerts s).1.isSome
      || !(c.check_state_for_alerts s).2.alerts.isEmpty) = true
  · simp [hstep1]
  · rw [Bool.not_eq_true] at hstep1
    rcases hscan : ReasoningEngine.symptomScan
        ((c.check_state_for_alerts s).2) s.symptoms with ⟨o, c2⟩
    have hcrit := symptomScan_isSome ((c.check_state_for_alerts s).2)
      s.symptoms
    rw [hscan] at hcrit
    cases o with
    | some pr =>
      obtain ⟨sym, msg⟩ := pr
      have : hasCriticalSymptom s = true := by
        unfold hasCriticalSymptom
        rw [← hcrit]
        rfl
      simp [hstep1, hscan, this]
    | none =>
      have : hasCriticalSymptom s = false := by
        unfold hasCriticalSymptom
        rw [← hcrit]
        rfl
      simp [hstep1, hscan, this, hobs]

/-- Witness for C3: iron is low at high confidence, but an action was taken
10 hours ago, no alert fires and no symptom is reported — `decide`
observes. -/
theorem decide_rate_limited_witness :
    exStateCooldown.last_action_date = some 90 ∧ (100 : ℚ) - 90 ≤ 20 ∧
    (ReasoningEngine.decide exStateCooldown exMemory0 exChecker0 100).1.1 =
      (if (step1Fires exChecker0 exStateCooldown ||
            hasCriticalSymptom exStateCooldown) = true
        then ActionType.ALERT_MEDICAL else ActionType.OBSERVE) :=
  ⟨rfl, by norm_num,
    decide_rate_limited exStateCooldown exMemory0 exChecker0 100 90 rfl
      (by norm_num)⟩

theorem clamp01_range (x : ℚ) : 0 ≤ clamp01 x ∧ clamp01 x ≤ 1 := by
  unfold clamp01
  exact ⟨le_max_left 0 _, max_le (by norm_num) (min_le_left 1 x)⟩

theorem lookupQ_mem (l : List (String × ℚ)) (k : String) (v : ℚ)
    (h : lookupQ l k = some v) : ∃ p ∈ l, p.2 = v := by
  unfold lookupQ at h
  cases hf : l.find? (fun p => p.1 == k) with
  | none => rw [hf] at h; simp at h
  | some p =>
    rw [hf] at h
    exact ⟨p, List.mem_of_find?_eq_some hf, by injection h⟩

theorem mem_updateAssoc_range (l : List (String × ℚ)) (k : String) (v : ℚ)
    (hl : ∀ p ∈ l, 0 ≤ p.2 ∧ p.2 ≤ 1) (hv0 : 0 ≤ v) (hv1 : v ≤ 1) :
    ∀ p ∈ updateAssoc l k v, 0 ≤ p.2 ∧ p.2 ≤ 1 := by
  intro q hq
  unfold updateAssoc at hq
  rcases List.mem_map.mp hq with ⟨orig, horig, hfo⟩
  by_cases hk : orig.1 == k
  · rw [if_pos hk] at hfo
    rw [← hfo]
    exact ⟨hv0, hv1⟩
  · rw [if_neg hk] at hfo
    rw [← hfo]
    exact hl orig horig

theorem apply_ml_signal_range (s : MaternalBrainState) (n : String)
    (p mc now : ℚ) (hs : stateInRange s) (h0 : 0 ≤ mc) (h1 : mc ≤ 1) :
    stateInRange (s.apply_ml_signal n p mc now) := by
  unfold MaternalBrainState.apply_ml_signal
  split
  · exact hs
  · rename_i b hl
    have hb : 0 ≤ b ∧ b ≤ 1 := by
      obtain ⟨pb, hpb, hpbv⟩ := lookupQ_mem _ _ _ hl
      rw [← hpbv]
      exact hs.1 pb hpb
    have hcp := clamp01_range p
    have hnb : 0 ≤ DAMPENING_FACTOR * b +
        (1 - DAMPENING_FACTOR) * clamp01 p ∧
        DAMPENING_FACTOR * b + (1 - DAMPENING_FACTOR) * clamp01 p ≤ 1 := by
      unfold DAMPENING_FACTOR
      constructor <;> nlinarith [hb.1, hb.2, hcp.1, hcp.2]
    have hc0 : 0 ≤ (lookupQ s.confidence_in_state n).getD 0 ∧
        (lookupQ s.confidence_in_state n).getD 0 ≤ 1 := by
      cases hc : lookupQ s.confidence_in_state n with
      | none => norm_num
      | some cv =>
        obtain ⟨pc, hpc, hpcv⟩ := lookupQ_mem _ _ _ hc
        simp only [Option.getD_some]
        rw [← hpcv]
        exact hs.2 pc hpc
    have hnc : 0 ≤ 1/2 * (lookupQ s.confidence_in_state n).getD 0 + 1/2 * mc ∧
        1/2 * (lookupQ s.confidence_in_state n).getD 0 + 1/2 * mc ≤ 1 := by
      constructor <;> nlinarith [hc0.1, hc0.2]
    exact ⟨mem_updateAssoc_range _ _ _ hs.1 hnb.1 hnb.2,
      mem_updateAssoc_range _ _ _ hs.2 hnc.1 hnc.2⟩

/-- C6 (amended) — for every state whose beliefs and confidences start
in `[0,1]` and every finite sequence of `apply_ml_signal` calls whose
`model_confidence` inputs lie in `[0,1]` (predictions may be arbitrary and
out of range, since the source clamps them), all resulting beliefs and
confidences stay within `[0,1]`. -/
theorem applySignals_range (sigs : List Signal) (s : MaternalBrainState)
    (hs : stateInRange s)
    (hsigs : ∀ g ∈ sigs,
      0 ≤ g.model_confidence ∧ g.model_confidence ≤ 1) :
    stateInRange (applySignals s sigs) := by
  induction sigs generalizing s with
  | nil => exact hs
  | cons g rest ih =>
    show stateInRange (applySignals
      (s.apply_ml_signal g.nutrient g.ml_prediction g.model_confidence g.now)
      rest)
    have hg := hsigs g (List.mem_cons_self g rest)
    exact ih _ (apply_ml_signal_range s _ _ _ _ hs hg.1 hg.2)
      (fun g' hg' => hsigs g' (List.mem_cons_of_mem _ hg'))

theorem exState0_inRange : stateInRange exState0 := by
  constructor <;>
  · intro p hp
    simp [exState0, MaternalBrainState.init] at hp
    rcases hp with h | h | h | h | h | h <;> simp [h] <;> norm_num

/-- C6 counterexample — the claim as stated also admits out-of-range
confidence inputs, but `apply_ml_signal` clamps only the prediction: one
signal with `model_confidence = 2` pushes the iron confidence to 1.25,
leaving the unit interval. -/
theorem applySignals_range_cex :
    stateInRange exState0 ∧
    ¬ stateInRange (applySignals exState0 [⟨"iron", 1/2, 2, 0⟩]) := by
  refine ⟨exState0_inRange, fun h => ?_⟩
  have := h.2 ("iron", 1/2 * (1/2) + 1/2 * 2) (by
    norm_num [applySignals, MaternalBrainState.apply_ml_signal, exState0,
      MaternalBrainState.init, lookupQ, List.find?, updateAssoc, clamp01,
      DAMPENING_FACTOR])
  norm_num at this

/-- Witness for C6 (amended): a default state absorbing one signal with an
out-of-range prediction 5 and in-range confidence 0.5 stays in range. -/
theorem applySignals_range_witness :
    stateInRange exState0 ∧
    (∀ g ∈ [Signal.mk "iron" 5 (1/2) 1],
      0 ≤ g.model_confidence ∧ g.model_confidence ≤ 1) ∧
    stateInRange (applySignals exState0 [Signal.mk "iron" 5 (1/2) 1]) := by
  have hg : ∀ g ∈ [Signal.mk "iron" 5 (1/2) 1],
      0 ≤ g.model_confidence ∧ g.model_confidence ≤ 1 := by
    intro g hgm
    simp at hgm
    subst hgm
    norm_num
  exact ⟨exState0_inRange, hg,
    applySignals_range [Signal.mk "iron" 5 (1/2) 1] exState0
      exState0_inRange hg⟩

theorem mem_addSet_self (s : List String) (x : String) : x ∈ addSet s x := by
  unfold addSet
  by_cases h : x ∈ s <;> simp [h]

theorem mem_addSet_of_mem (s : List String) (x y : String) (h : y ∈ s) :
    y ∈ addSet s x := by
  unfold addSet
  by_cases hx : x ∈ s <;> simp [h, hx]

theorem find?_incrCount_isSome (l : List (String × Nat)) (k : String) :
    ((incrCount l k).find? (fun p => p.1 == k)).isSome = true := by
  induction l with
  | nil => simp [incrCount, List.find?]
  | cons p rest ih =>
    obtain ⟨k', v⟩ := p
    unfold incrCount
    by_cases h : k' == k
    · simp [h, List.find?]
    · simp [List.find?, h, ih]

theorem record_outcome_negative_marks (m : Memory) (aid : String)
    (txt : Option String) (now : ℚ) (act : Action)
    (hfind : m.actions.find? (fun a => a.action_id == aid) = some act) :
    act.action_text ∈ (m.record_outcome aid "negative" txt now).2.dislikes ∧
    (((m.record_outcome aid "negative" txt now).2.failed_suggestions).find?
      (fun p => p.1 == act.action_text)).isSome = true := by
  unfold Memory.record_outcome
  rw [hfind]
  simp [mem_addSet_self, find?_incrCount_isSome]

theorem dislikes_mono_applyOp (m : Memory) (op : MemOp) (x : String)
    (h : x ∈ m.dislikes) : x ∈ (applyOp m op).dislikes := by
  cases op with
  | log t xt r n now => exact h
  | record aid o txt now =>
    show x ∈ ((m.record_outcome aid o txt now).2).dislikes
    unfold Memory.record_outcome
    cases hf : m.actions.find? (fun a => a.action_id == aid) with
    | none => exact h
    | some act =>
      by_cases h1 : o == "positive"
      · simp [h1, h]
      · by_cases h2 : o == "negative"
        · simp [h1, h2, mem_addSet_of_mem _ _ _ h]
        · simp [h1, h2, h]
  | contra sug r => exact h
  | allergy a => exact h

theorem dislikes_mono_applyOps (m : Memory) (ops : List MemOp) (x : String)
    (h : x ∈ m.dislikes) : x ∈ (applyOps m ops).dislikes := by
  induction ops generalizing m with
  | nil => exact h
  | cons op rest ih => exact ih _ (dislikes_mono_applyOp m op x h)

theorem should_avoid_of_dislike (m : Memory) (f : String)
    (h : f ∈ m.dislikes) : m.should_avoid_suggestion f = true := by
  unfold Memory.should_avoid_suggestion
  simp [h]

theorem candidateLoop_avoids (nutrient : String) (s : MaternalBrainState)
    (m : Memory) (now : ℚ) (f : String)
    (havoid : m.should_avoid_suggestion f = true) :
    ∀ (cands : List String) (c : SafetyChecker),
      (ReasoningEngine.candidateLoop nutrient s m now c cands).1.1
          = ActionType.SUGGEST_FOOD →
      detailStr (ReasoningEngine.candidateLoop nutrient s m now c
        cands).1.2.1 "food" ≠ some f := by
  intro cands
  induction cands with
  | nil =>
    intro c hkind
    unfold ReasoningEngine.candidateLoop at hkind
    simp at hkind
  | cons food rest ih =>
    intro c hkind
    unfold ReasoningEngine.candidateLoop at hkind ⊢
    by_cases h1 : m.should_avoid_suggestion food
    · simp only [h1, if_true] at hkind ⊢
      exact ih _ hkind
    · simp only [h1, Bool.false_eq_true, if_false] at hkind ⊢
      by_cases h2 : m.was_recently_suggested food now
      · simp only [h2, if_true] at hkind ⊢
        exact ih _ hkind
      · simp only [h2, Bool.false_eq_true, if_false] at hkind ⊢
        by_cases h3 : (c.check_food_safety food s.pregnancy_stage
            s.breastfeeding).1.1
        · simp only [h3, if_true] at hkind ⊢
          simp [detailStr, List.find?]
          intro heq
          rw [heq] at h1
          exact h1 havoid
        · simp only [h3, Bool.false_eq_true, if_false] at hkind ⊢
          exact ih _ hkind

/-- C2 — once an action's outcome is recorded negative, its text lands
in `dislikes` and `failed_suggestions`; after any further sequence of
memory operations `should_avoid_suggestion` still holds for it, and the
step-5 food-candidate search can never return it as a `SUGGEST_FOOD`
action, for any nutrient, state and cycle. -/
theorem negative_outcome_never_suggested (m0 : Memory) (aid : String)
    (txt : Option String) (now : ℚ) (act : Action) (f : String)
    (ops : List MemOp) (nutrient : String) (s : MaternalBrainState)
    (c : SafetyChecker) (now2 : ℚ)
    (hfind : m0.actions.find? (fun a => a.action_id == aid) = some act)
    (hf : act.action_text = f) :
    f ∈ (m0.record_outcome aid "negative" txt now).2.dislikes ∧
    ((((m0.record_outcome aid "negative" txt now).2.failed_suggestions).find?
      (fun p => p.1 == f)).isSome = true) ∧
    (applyOps (m0.record_outcome aid "negative" txt now).2
      ops).should_avoid_suggestion f = true ∧
    ((ReasoningEngine.suggest_for_nutrient nutrient s
        (applyOps (m0.record_outcome aid "negative" txt now).2 ops) c
        now2).1.1 = ActionType.SUGGEST_FOOD →
      detailStr (ReasoningEngine.suggest_for_nutrient nutrient s
        (applyOps (m0.record_outcome aid "negative" txt now).2 ops) c
        now2).1.2.1 "food" ≠ some f) := by
  subst hf
  have hmark := record_outcome_negative_marks m0 aid txt now act hfind
  have hdis := dislikes_mono_applyOps _ ops _ hmark.1
  have havoid := should_avoid_of_dislike _ _ hdis
  refine ⟨hmark.1, hmark.2, havoid, ?_⟩
  unfold ReasoningEngine.suggest_for_nutrient
  exact candidateLoop_avoids nutrient s _ now2 act.action_text havoid _ c

/-- Witness for C2: the spinach suggestion of `exMemoryA` recorded
negative; with no further operations, the iron food search can no longer
return spinach. -/
theorem negative_outcome_never_suggested_witness :
    exMemoryA.actions.find? (fun a => a.action_id == "u_0_0")
        = some exAction ∧
    exAction.action_text = "spinach" ∧
    "spinach" ∈ (exMemoryA.record_outcome "u_0_0" "negative" none
      1).2.dislikes ∧
    (applyOps (exMemoryA.record_outcome "u_0_0" "negative" none 1).2
      []).should_avoid_suggestion "spinach" = true ∧
    ((ReasoningEngine.suggest_for_nutrient "iron" exStateIron
        (applyOps (exMemoryA.record_outcome "u_0_0" "negative" none 1).2 [])
        exChecker0 100).1.1 = ActionType.SUGGEST_FOOD →
      detailStr (ReasoningEngine.suggest_for_nutrient "iron" exStateIron
        (applyOps (exMemoryA.record_outcome "u_0_0" "negative" none 1).2 [])
        exChecker0 100).1.2.1 "food" ≠ some "spinach") := by
  have h := negative_outcome_never_suggested exMemoryA "u_0_0" none 1
    exAction "spinach" [] "iron" exStateIron exChecker0 100 rfl rfl
  exact ⟨rfl, rfl, h.1, h.2.2.1, h.2.2.2⟩

theorem state_from_to (s : MaternalBrainState) :
    MaternalBrainState.from_dict s.to_dict = s := rfl

theorem action_from_to (a : Action) : Action.from_dict a.to_dict = a := rfl

theorem memory_from_to (m : Memory) (h : m.recent_action_window_days = 3) :
    Memory.from_dict m.to_dict = m := by
  have hacts : (m.actions.map Action.to_dict).map Action.from_dict
      = m.actions := by
    rw [List.map_map]
    have hid : (Action.from_dict ∘ Action.to_dict) = id :=
      funext (fun a => action_from_to a)
    rw [hid, List.map_id]
  cases m
  simp_all [Memory.from_dict, Memory.to_dict]

/-- C9 — serializing the belief state and the memory with `to_dict` and
restoring them with `from_dict` yields copies on which `decide` (same
checker, same clock) returns the identical decision triple.  The memory's
`recent_action_window_days` is not serialized and is re-initialized to its
constant 3, so the hypothesis pins it to that constant value (the
constructor's only value). -/
theorem decide_roundtrip (s : MaternalBrainState) (m : Memory)
    (c : SafetyChecker) (now : ℚ)
    (h : m.recent_action_window_days = 3) :
    (ReasoningEngine.decide (MaternalBrainState.from_dict s.to_dict)
        (Memory.from_dict m.to_dict) c now).1
      = (ReasoningEngine.decide s m c now).1 := by
  rw [state_from_to, memory_from_to m h]

/-- Witness for C9 at a concrete state, memory (window = 3), checker and
clock. -/
theorem decide_roundtrip_witness :
    exMemoryA.recent_action_window_days = 3 ∧
    (ReasoningEngine.decide
        (MaternalBrainState.from_dict exStateIron.to_dict)
        (Memory.from_dict exMemoryA.to_dict) exChecker0 100).1
      = (ReasoningEngine.decide exStateIron exMemoryA exChecker0 100).1 :=
  ⟨rfl, decide_roundtrip exStateIron exMemoryA exChecker0 100 rfl⟩

end Nutrimama
